import Mathlib

/-!
Shallow embedding of zviewer (src/zviewer.c), a curses-based viewer that
watches a single file via inotify, re-renders it through an external command
on every change, and repositions the viewport on the first changed line.

Modelling conventions:
* A rendered line is a `String` (as produced by `getline`, including its
  terminating newline when present).
* `G.nlines`/`LINES`/`COLS` are `Nat`; the C `int` values that may go
  negative (`rowoff` candidates, `getch` key codes) are `Int`.
* `G.contents` is a `List String`.  In the C code the pointer is `NULL`
  exactly when the last `do_render` produced zero lines (the `realloc`
  chain is never entered) and at startup, so the pointer-`NULL` test
  `!G.contents` is modelled as equality with the empty list.
* Process-level effects (fork/pipe/waitpid) are abstracted: `do_render` is a
  function of the lines captured from the child's combined output stream and
  of the child's wait status.
-/

namespace Zviewer

/-- Clamp a proposed viewport offset, from `set_rowoff` (src/zviewer.c:133-143):
`if (y < 0) y = 0; else if (G.nlines <= (size_t)LINES) y = 0;
else if ((size_t)y >= G.nlines - (size_t)LINES) y = G.nlines - LINES;
G.rowoff = y;`.  `nlines` is `G.nlines`, `L` the curses viewport height
`LINES`, `y` the proposed offset (a C `int`). -/
def set_rowoff (nlines L : Nat) (y : Int) : Nat :=
  if y < 0 then 0
  else if nlines ≤ L then 0
  else if (nlines : Int) - (L : Int) ≤ y then nlines - L
  else y.toNat

/-- The reload-relevant part of the global state `G`: the content buffer
`G.contents` (with `G.nlines = contents.length`) and the viewport offset
`G.rowoff` (always nonnegative after `set_rowoff`, hence a `Nat`). -/
structure VState where
  contents : List String
  rowoff : Nat
deriving Repr, DecidableEq

/-- The divergence scan of `do_reload` (src/zviewer.c:160-166): the first
index `i < min old.length new.length` with `strcmp(old[i], new[i]) != 0`,
`none` when the scanned common part is identical. -/
def firstDiff : List String → List String → Option Nat
  | a :: as, b :: bs =>
      if a ≠ b then some 0 else (firstDiff as bs).map (fun i => i + 1)
  | _, _ => none

/-- The repositioning target computed by `do_reload` (src/zviewer.c:157-175)
before clamping: the first divergence index when the scan found one,
otherwise 0 on a first load (`!G.contents`, i.e. empty stored buffer),
`nlines` (the NEW line count) when the line counts differ, and the current
`G.rowoff` when nothing changed in the compared part. -/
def reload_target (s : VState) (newContents : List String) : Int :=
  match firstDiff s.contents newContents with
  | some i => (i : Int)
  | none =>
      if s.contents = [] then 0
      else if s.contents.length ≠ newContents.length then
        (newContents.length : Int)
      else (s.rowoff : Int)

/-- One `do_reload` step (src/zviewer.c:145-185) given the lines produced by
the render: replace the buffer and store the clamped target via
`set_rowoff` (called after `G.nlines` has been updated to the new count). -/
def do_reload (L : Nat) (s : VState) (newContents : List String) : VState :=
  { contents := newContents
    rowoff := set_rowoff newContents.length L (reload_target s newContents) }

/-- Outcome of `waitpid` on the render child: a normal exit with a code
(`WIFEXITED`), or an abnormal termination (signal). -/
inductive WaitStatus where
  | exited (code : Nat)
  | signaled
deriving Repr, DecidableEq

/-- The failure message built by `do_render` (src/zviewer.c:104-107):
`asprintf(&G.msg, "%s: %s", msg, newContents[0])` when at least one line was
captured, `asprintf(&G.msg, "%s\n", msg)` otherwise. -/
def render_fail_msg (msg : String) (capturedLines : List String) : String :=
  match capturedLines with
  | [] => msg ++ "\n"
  | l :: _ => msg ++ ": " ++ l

/-- The outcome classification of `do_render` (src/zviewer.c:89-110), as a
function of the lines read from the child's combined stdout+stderr stream
and of the child's wait status: `!WIFEXITED` yields the "render terminated"
failure, a nonzero exit code the "render failed" failure, and exit code 0
returns the captured lines. -/
def do_render (capturedLines : List String) (ws : WaitStatus) :
    Except String (List String) :=
  match ws with
  | .signaled => .error (render_fail_msg "render terminated" capturedLines)
  | .exited c =>
      if c ≠ 0 then .error (render_fail_msg "render failed" capturedLines)
      else .ok capturedLines

/-- `IN_DELETE_SELF` from `<sys/inotify.h>` (0x400). -/
def IN_DELETE_SELF : Nat := 1024

/-- The test `ep->mask & IN_DELETE_SELF` of `handle_event`
(src/zviewer.c:191-199): true when the notification signals removal of the
watched file. -/
def is_delete_event (mask : Nat) : Bool := mask &&& IN_DELETE_SELF != 0

/-- The event-drain loop of `main` (src/zviewer.c:325-334) over one batch of
inotify events read in a single `read`.  For each event, `handle_event` is
called: on `IN_DELETE_SELF` it returns 1 and `main` jumps to `do_exit`
(`return 0`, exit code 0) without touching the remaining events; otherwise
it calls `do_reload` and the loop continues with the next event.  `renders`
supplies the lines produced by each successive render invocation.  Returns
the final viewer state, the number of `do_reload` calls performed, and
`some 0` when the batch ended in the `do_exit` path (`none` when the event
loop continues). -/
def drain_batch (L : Nat) :
    VState → List (List String) → List Nat → VState × Nat × Option Int
  | s, _, [] => (s, 0, none)
  | s, renders, m :: ms =>
      if is_delete_event m then (s, 0, some 0)
      else
        let r := drain_batch L (do_reload L s (renders.headD [])) renders.tail ms
        (r.1, r.2.1 + 1, r.2.2)

/-- The key-handling state of `handle_key` (src/zviewer.c:236-275): the
viewport offset `G.rowoff`, the line count `G.nlines` (fixed while no reload
runs), the `static int last_key`, and the exit code once `exit` was called
(`exit(0)` on the quit key). -/
structure KState where
  rowoff : Nat
  nlines : Nat
  last_key : Int
  exitCode : Option Int
deriving Repr, DecidableEq

/-- One `handle_key` step (src/zviewer.c:236-275).  Key codes: `j` 106,
`KEY_DOWN` 258, `k` 107, `KEY_UP` 259, `KEY_ENTER` 343, `u` 117,
`KEY_NPAGE` 338, `d` 100, `KEY_PPAGE` 339, `g` 103, `G` 71, `q` 113.
Note that only the `g` case and the `default` case assign `last_key`; the
navigation cases leave it untouched. -/
def handle_key (L : Nat) (s : KState) (key : Int) : KState :=
  if key = 106 ∨ key = 258 then
    { s with rowoff := set_rowoff s.nlines L ((s.rowoff : Int) + 1) }
  else if key = 107 ∨ key = 259 ∨ key = 343 then
    { s with rowoff := set_rowoff s.nlines L ((s.rowoff : Int) - 1) }
  else if key = 117 ∨ key = 338 then
    { s with rowoff := set_rowoff s.nlines L ((s.rowoff : Int) - ((L / 2 : Nat) : Int)) }
  else if key = 100 ∨ key = 339 then
    { s with rowoff := set_rowoff s.nlines L ((s.rowoff : Int) + ((L / 2 : Nat) : Int)) }
  else if key = 103 then
    if s.last_key = 103 then
      { s with rowoff := set_rowoff s.nlines L 0, last_key := 0 }
    else
      { s with last_key := key }
  else if key = 71 then
    { s with rowoff := set_rowoff s.nlines L (s.nlines : Int) }
  else if key = 113 then
    { s with exitCode := some 0 }
  else
    { s with last_key := key }

/-- Feed a sequence of key codes through `handle_key`; once `exit` has been
called no further key is processed. -/
def run_keys (L : Nat) (s : KState) (keys : List Int) : KState :=
  keys.foldl (fun t k => if t.exitCode.isSome then t else handle_key L t k) s

/-- The keys `handle_key` recognizes with a dedicated `case` label
(everything that does not fall through to `default`). -/
def handledKeys : List Int :=
  [106, 258, 107, 259, 343, 117, 338, 100, 339, 103, 71, 113]

/-- The navigation keys of `handle_key`: the `case` labels that scroll the
viewport without assigning `last_key`. -/
def navKeys : List Int :=
  [106, 258, 107, 259, 343, 117, 338, 100, 339, 71]

/-- The viewport-offset invariant of spec section 3:
`0 <= offset <= max(0, nlines - viewport_height)`, and `offset = 0` whenever
the buffer fits in the viewport.  In `Nat`, truncated subtraction makes
`nlines - L` equal to `max 0 (nlines - L)` over the integers. -/
def rowoff_inv (nlines L rowoff : Nat) : Prop :=
  rowoff ≤ nlines - L ∧ (nlines ≤ L → rowoff = 0)

instance (nlines L rowoff : Nat) : Decidable (rowoff_inv nlines L rowoff) := by
  unfold rowoff_inv; infer_instance

/-! Helper lemmas shared by the claim theorems. -/

/-- `set_rowoff` maps the proposed offset 0 to 0. -/
theorem set_rowoff_zero (nlines L : Nat) : set_rowoff nlines L 0 = 0 := by
  unfold set_rowoff
  repeat' split
  all_goals omega

/-- `set_rowoff` always lands in the invariant range of spec section 3. -/
theorem set_rowoff_inv (nlines L : Nat) (y : Int) :
    rowoff_inv nlines L (set_rowoff nlines L y) := by
  unfold set_rowoff rowoff_inv
  repeat' split
  all_goals constructor <;> omega

/-- Offsets already in the invariant range are fixed points of `set_rowoff`. -/
theorem set_rowoff_fixed (nlines L r : Nat) (h : rowoff_inv nlines L r) :
    set_rowoff nlines L (r : Int) = r := by
  obtain ⟨h1, h2⟩ := h
  unfold set_rowoff
  repeat' split
  all_goals omega

/-- The divergence scan on an empty old buffer finds nothing. -/
theorem firstDiff_nil (l : List String) : firstDiff [] l = none := by
  cases l <;> rfl

/-- The divergence scan finds nothing when old and new coincide. -/
theorem firstDiff_refl (l : List String) : firstDiff l l = none := by
  induction l with
  | nil => rfl
  | cons a as ih => simp [firstDiff, ih]

/-- The divergence scan finds nothing when the old buffer heads the new one. -/
theorem firstDiff_self_append (l r : List String) :
    firstDiff l (l ++ r) = none := by
  induction l with
  | nil => exact firstDiff_nil r
  | cons a as ih => simp [firstDiff, ih]

/-- The divergence scan returns the first index at which the lists differ. -/
theorem firstDiff_eq_first (old new : List String) (k : Nat)
    (hk1 : k < old.length) (hk2 : k < new.length)
    (hpre : ∀ i, i < k → old[i]? = new[i]?)
    (hne : old[k]? ≠ new[k]?) :
    firstDiff old new = some k := by
  induction old generalizing new k with
  | nil => simp at hk1
  | cons a as ih =>
    cases new with
    | nil => simp at hk2
    | cons b bs =>
      cases k with
      | zero =>
        have hab : a ≠ b := by simpa using hne
        simp [firstDiff, hab]
      | succ k =>
        have hab : a = b := by simpa using hpre 0 (Nat.succ_pos k)
        subst hab
        have hrec : firstDiff as bs = some k := by
          apply ih
          · simpa using hk1
          · simpa using hk2
          · intro i hi
            simpa using hpre (i + 1) (by omega)
          · simpa using hne
        simp [firstDiff, hrec]

/-- When the scan finds no divergence, the old buffer is nonempty and the
line counts differ, `do_reload` clamps the NEW line count into the offset. -/
theorem reload_rowoff_tail (L : Nat) (s : VState) (newContents : List String)
    (hold : s.contents ≠ [])
    (hdiff : firstDiff s.contents newContents = none)
    (hlen : s.contents.length ≠ newContents.length) :
    (do_reload L s newContents).rowoff =
      set_rowoff newContents.length L (newContents.length : Int) := by
  simp [do_reload, reload_target, hdiff, hold, hlen]

/-- Exact behaviour of the batch drain: one reload per event up to (and
excluding) the first removal event, and the exit-0 path taken exactly when
the batch holds a removal event. -/
theorem drain_batch_spec (L : Nat) (s : VState) (renders : List (List String))
    (ms : List Nat) :
    (drain_batch L s renders ms).2.1 =
      (ms.takeWhile (fun m => !is_delete_event m)).length
    ∧ (drain_batch L s renders ms).2.2 =
      (if ms.any is_delete_event then some 0 else none) := by
  induction ms generalizing s renders with
  | nil => simp [drain_batch]
  | cons m ms ih =>
    by_cases h : is_delete_event m
    · simp [drain_batch, h, List.takeWhile_cons, List.any_cons]
    · have h2 := ih (do_reload L s (renders.headD [])) renders.tail
      constructor
      · simp only [drain_batch, if_neg h]
        rw [h2.1]
        simp [List.takeWhile_cons, h]
      · simp only [drain_batch, if_neg h]
        rw [h2.2]
        simp [List.any_cons, h]

/-! Claim theorems. -/

/-- C1, counterexample: with viewport height 1, old buffer
`["a\n", "b\n"]` (2 lines) and new buffer the same plus two appended lines
(4 lines, old a strict prefix of new, not a first reload), `do_reload` does
NOT set the offset to the clamp of `old.length = 2` (which would be 2): it
targets the NEW length 4 and clamps it to 3. -/
theorem C1_counterexample :
    ¬ ((do_reload 1 ⟨["a\n", "b\n"], 0⟩ ["a\n", "b\n", "c\n", "d\n"]).rowoff =
        set_rowoff 4 1 2) := by decide

/-- C1, amended: for every reload where the old content is a nonempty strict
prefix of the new content (lines appended at the tail, first reload
excluded), `do_reload` sets the viewport offset to the NEW content's line
count `newContents.length` (not `old.length`), clamped per the rule of
section 3. -/
theorem C1_append_tail_offset (L : Nat) (s : VState) (rest : List String)
    (hold : s.contents ≠ []) (hrest : rest ≠ []) :
    (do_reload L s (s.contents ++ rest)).rowoff =
      set_rowoff (s.contents ++ rest).length L
        ((s.contents ++ rest).length : Int) := by
  apply reload_rowoff_tail L s (s.contents ++ rest) hold
    (firstDiff_self_append s.contents rest)
  have : 0 < rest.length := List.length_pos.mpr hrest
  simp only [List.length_append]
  omega

/-- C1, witness for the amended theorem at a concrete input: old buffer of 2
lines, 2 appended lines, viewport height 1. -/
theorem C1_append_tail_offset_witness :
    (do_reload 1 ⟨["a\n", "b\n"], 0⟩ (["a\n", "b\n"] ++ ["c\n", "d\n"])).rowoff =
      set_rowoff (["a\n", "b\n"] ++ ["c\n", "d\n"] : List String).length 1
        ((["a\n", "b\n"] ++ ["c\n", "d\n"] : List String).length : Int) :=
  C1_append_tail_offset 1 ⟨["a\n", "b\n"], 0⟩ ["c\n", "d\n"]
    (by decide) (by decide)

/-- C2: for every reload that is not the first (stored buffer nonempty, i.e.
`G.contents != NULL`), if the divergence scan found nothing and the old and
new line counts differ, the repositioning target is the new line count,
clamped by `set_rowoff` before being stored as the viewport offset. -/
theorem C2_tail_change_offset (L : Nat) (s : VState) (newContents : List String)
    (hold : s.contents ≠ [])
    (hdiff : firstDiff s.contents newContents = none)
    (hlen : s.contents.length ≠ newContents.length) :
    (do_reload L s newContents).rowoff =
      set_rowoff newContents.length L (newContents.length : Int) :=
  reload_rowoff_tail L s newContents hold hdiff hlen

/-- C2, witness: old buffer `["a\n"]`, new buffer of 4 lines sharing the
1-line prefix, viewport height 2: the offset becomes `set_rowoff 4 2 4 = 2`. -/
theorem C2_tail_change_offset_witness :
    (do_reload 2 ⟨["a\n"], 0⟩ ["a\n", "b\n", "c\n", "d\n"]).rowoff =
      set_rowoff 4 2 4 :=
  C2_tail_change_offset 2 ⟨["a\n"], 0⟩ ["a\n", "b\n", "c\n", "d\n"]
    (by decide) (by decide) (by decide)

/-- C6: for every reload where the new content has the same number of lines
as the old content and differs from it exactly at line index `k` (exact
string inequality there, all other lines equal), `do_reload` sets the
viewport offset to `k`, clamped per the rule of section 3. -/
theorem C6_single_line_change_offset (L : Nat) (s : VState)
    (newContents : List String) (k : Nat)
    (hlen : s.contents.length = newContents.length)
    (hk : k < newContents.length)
    (hothers : ∀ i, i ≠ k → s.contents[i]? = newContents[i]?)
    (hne : s.contents[k]? ≠ newContents[k]?) :
    (do_reload L s newContents).rowoff =
      set_rowoff newContents.length L (k : Int) := by
  have hfd : firstDiff s.contents newContents = some k :=
    firstDiff_eq_first s.contents newContents k (by omega) hk
      (fun i hi => hothers i (by omega)) hne
  simp [do_reload, reload_target, hfd]

/-- C6, witness: 3-line buffer whose middle line changes, viewport height
10: the offset becomes `set_rowoff 3 10 1 = 0`. -/
theorem C6_single_line_change_offset_witness :
    (do_reload 10 ⟨["a\n", "b\n", "c\n"], 0⟩ ["a\n", "x\n", "c\n"]).rowoff =
      set_rowoff 3 10 1 :=
  C6_single_line_change_offset 10 ⟨["a\n", "b\n", "c\n"], 0⟩
    ["a\n", "x\n", "c\n"] 1 (by decide) (by decide)
    (by
      intro i hi
      match i with
      | 0 => rfl
      | 1 => exact absurd rfl hi
      | 2 => rfl
      | n + 3 => rfl)
    (by decide)

/-- C7: for every reload that is not the first (stored buffer nonempty), if
the new content is line-for-line identical to the old content then
`do_reload` leaves the viewport offset unchanged, assuming the offset
satisfied the clamping invariant of section 3 beforehand. -/
theorem C7_identical_keeps_offset (L : Nat) (s : VState)
    (hold : s.contents ≠ [])
    (hinv : rowoff_inv s.contents.length L s.rowoff) :
    (do_reload L s s.contents).rowoff = s.rowoff := by
  have hfd : firstDiff s.contents s.contents = none := firstDiff_refl s.contents
  simp only [do_reload, reload_target, hfd]
  simp only [if_neg hold, if_neg (by omega : ¬s.contents.length ≠ s.contents.length)]
  exact set_rowoff_fixed s.contents.length L s.rowoff hinv

/-- C7, witness: 3-line buffer reloaded identically with viewport height 1
and offset 2 (the maximal in-range offset): the offset stays 2. -/
theorem C7_identical_keeps_offset_witness :
    (do_reload 1 ⟨["a\n", "b\n", "c\n"], 2⟩ ["a\n", "b\n", "c\n"]).rowoff = 2 :=
  C7_identical_keeps_offset 1 ⟨["a\n", "b\n", "c\n"], 2⟩ (by decide) (by decide)

/-- C10: the `first load` test of `do_reload` is `!G.contents`, which holds
exactly when the stored buffer is empty; a render that produced zero lines
stores the empty buffer, so the NEXT reload takes the first-load branch:
its target is 0 (giving offset 0 after clamping) even though a previous
reload occurred and the old (zero) and new line counts differ — instead of
the tail target `newContents.length`, whose clamp would be nonzero whenever
the new content overflows the viewport. -/
theorem C10_empty_render_acts_as_first_load (L1 L2 : Nat) (s : VState)
    (newContents : List String) (h : L2 < newContents.length) :
    (do_reload L1 s []).contents = [] ∧
    (do_reload L2 (do_reload L1 s []) newContents).rowoff = 0 ∧
    set_rowoff newContents.length L2 (newContents.length : Int) ≠ 0 := by
  refine ⟨rfl, ?_, ?_⟩
  · simp only [do_reload, reload_target, firstDiff_nil, if_pos rfl]
    exact set_rowoff_zero newContents.length L2
  · unfold set_rowoff
    repeat' split
    all_goals omega

/-- C10, witness: after a zero-line render, a reload to 4 lines with
viewport height 2 lands at offset 0, while the tail target would clamp to
`4 - 2 = 2`. -/
theorem C10_empty_render_acts_as_first_load_witness :
    (do_reload 3 ⟨["a\n"], 1⟩ []).contents = [] ∧
    (do_reload 2 (do_reload 3 ⟨["a\n"], 1⟩ []) ["a\n", "b\n", "c\n", "d\n"]).rowoff = 0 ∧
    set_rowoff 4 2 4 ≠ 0 :=
  C10_empty_render_acts_as_first_load 3 2 ⟨["a\n"], 1⟩
    ["a\n", "b\n", "c\n", "d\n"] (by decide)

/-- C3, counterexample: a batch of two `IN_MODIFY` (2) notifications holds
no removal signal, yet the drain loop performs two `do_reload` calls — not
at most one per batch. -/
theorem C3_counterexample :
    (∀ m ∈ ([2, 2] : List Nat), ¬ is_delete_event m) ∧
    ¬ ((drain_batch 10 ⟨[], 0⟩ [[], []] [2, 2]).2.1 ≤ 1) := by decide

/-- C3, amended: the event loop drains a batch one notification at a time,
calling `do_reload` once for EACH non-removal notification (so a batch of n
modify/write notifications triggers n reloads, not one); it stops at the
first removal notification and exits (code 0), so notifications after a
removal are ignored but each one before it has already triggered its own
reload. -/
theorem C3_batch_drain (L : Nat) (s : VState) (renders : List (List String))
    (ms : List Nat) :
    (drain_batch L s renders ms).2.1 =
      (ms.takeWhile (fun m => !is_delete_event m)).length
    ∧ (drain_batch L s renders ms).2.2 =
      (if ms.any is_delete_event then some 0 else none) :=
  drain_batch_spec L s renders ms

/-- C4, counterexample: with 100 lines, viewport height 10 and offset 5, the
key sequence `g`, `j`, `g` jumps to the top (offset 0): the intervening `j`
case does not assign `last_key`, so the pending `g` stays armed.  Without
the final `g` the offset is 6, so the jump is what produced 0. -/
theorem C4_counterexample :
    (run_keys 10 ⟨5, 100, 0, none⟩ [103, 106, 103]).rowoff = 0 ∧
    (run_keys 10 ⟨5, 100, 0, none⟩ [103, 106]).rowoff = 6 := by decide

/-- C4, amended: a second `g` right after an armed `g` fires the jump to top
and disarms; the navigation keys (`j`/`k`/`u`/`d`/`G` and their keypad
aliases) never assign `last_key`, hence leave a pending `g` armed; only a
key falling through to the `default` case rewrites `last_key` (disarming
when it is not `g` itself, without any scroll effect).  Consequently
`g`, `j`, `g` jumps to top, while `g`, `x`, `g` (unhandled `x`) does not. -/
theorem C4_gg_reset_only_on_default :
    (∀ (L : Nat) (s : KState), s.last_key = 103 →
      (handle_key L s 103).rowoff = 0 ∧ (handle_key L s 103).last_key = 0)
    ∧ (∀ (L : Nat) (s : KState) (k : Int), k ∈ navKeys →
      (handle_key L s k).last_key = s.last_key)
    ∧ (∀ (L : Nat) (s : KState) (k : Int), k ∉ handledKeys →
      (handle_key L s k).last_key = k ∧ (handle_key L s k).rowoff = s.rowoff)
    ∧ (run_keys 10 ⟨5, 100, 0, none⟩ [103, 120, 103]).rowoff = 5 := by
  refine ⟨?_, ?_, ?_, by decide⟩
  · intro L s h
    simp [handle_key, h, set_rowoff_zero]
  · intro L s k hk
    fin_cases hk <;> simp [handle_key]
  · intro L s k hk
    simp only [handledKeys, List.mem_cons, List.not_mem_nil, or_false,
      not_or] at hk
    obtain ⟨h1, h2, h3, h4, h5, h6, h7, h8, h9, h10, h11, h12⟩ := hk
    simp [handle_key, h1, h2, h3, h4, h5, h6, h7, h8, h9, h10, h11, h12]

/-- C4, witness for the amended theorem: armed state fires on `g` (103),
`j` (106) preserves `last_key`, and the unhandled key 120 rewrites it. -/
theorem C4_gg_reset_only_on_default_witness :
    (handle_key 10 ⟨5, 100, 103, none⟩ 103).rowoff = 0 ∧
    (handle_key 10 ⟨5, 100, 103, none⟩ 106).last_key = 103 ∧
    (handle_key 10 ⟨5, 100, 103, none⟩ 120).last_key = 120 :=
  ⟨(C4_gg_reset_only_on_default.1 10 ⟨5, 100, 103, none⟩ rfl).1,
   C4_gg_reset_only_on_default.2.1 10 ⟨5, 100, 103, none⟩ 106 (by decide),
   (C4_gg_reset_only_on_default.2.2.1 10 ⟨5, 100, 103, none⟩ 120 (by decide)).1⟩

/-- C5: after every reload the viewport offset lies within
`[0, max(0, nlines - viewport_height)]` (with `offset = 0` whenever
`nlines <= viewport_height`, including `nlines = 0`), for all buffer lengths
and viewport heights; and every `handle_key` navigation step preserves that
invariant. -/
theorem C5_offset_invariant :
    (∀ (L : Nat) (s : VState) (newContents : List String),
      rowoff_inv newContents.length L (do_reload L s newContents).rowoff)
    ∧ (∀ (L : Nat) (s : KState) (key : Int),
      rowoff_inv s.nlines L s.rowoff →
      rowoff_inv s.nlines L (handle_key L s key).rowoff) := by
  constructor
  · intro L s newContents
    exact set_rowoff_inv newContents.length L (reload_target s newContents)
  · intro L s key hinv
    unfold handle_key
    repeat' split
    all_goals dsimp only
    all_goals first
      | exact set_rowoff_inv s.nlines L _
      | exact hinv

/-- C5, witness: one `j` step from offset 5 in a 20-line buffer with
viewport height 10 stays in the invariant range. -/
theorem C5_offset_invariant_witness :
    rowoff_inv 20 10 (handle_key 10 ⟨5, 20, 0, none⟩ 106).rowoff :=
  C5_offset_invariant.2 10 ⟨5, 20, 0, none⟩ 106 (by decide)

/-- C8: `do_render` returns the captured lines exactly on child exit code 0;
a nonzero exit code yields the "render failed" message carrying the first
captured line (or the generic newline-terminated message when no line was
captured); an abnormal termination yields the distinct "render terminated"
message (never equal to the failed-category message on the same captured
lines); and in the concrete scenario of exit code 2 after first printing
"parse error at line 9", the reported message contains that line. -/
theorem C8_render_outcomes :
    (∀ capturedLines : List String,
      do_render capturedLines (.exited 0) = .ok capturedLines)
    ∧ (∀ (capturedLines : List String) (c : Nat), c ≠ 0 →
      do_render capturedLines (.exited c) =
        .error (render_fail_msg "render failed" capturedLines))
    ∧ (∀ capturedLines : List String,
      do_render capturedLines .signaled =
        .error (render_fail_msg "render terminated" capturedLines))
    ∧ (∀ capturedLines : List String,
      render_fail_msg "render terminated" capturedLines ≠
        render_fail_msg "render failed" capturedLines)
    ∧ (∃ pre post : String,
      do_render ["parse error at line 9\n"] (.exited 2) =
        .error (pre ++ "parse error at line 9" ++ post)) := by
  refine ⟨fun l => rfl, fun l c hc => by simp [do_render, hc], fun l => rfl,
    ?_, ⟨"render failed: ", "\n", by rfl⟩⟩
  intro l h
  cases l with
  | nil => exact absurd h (by decide)
  | cons a as =>
    have hlen := congrArg String.length h
    have e1 : ("render terminated" : String).length = 17 := by decide
    have e2 : ("render failed" : String).length = 13 := by decide
    simp only [render_fail_msg, String.length_append] at hlen
    omega

/-- C8, witness: exit code 2 with first captured line
"parse error at line 9\n" reports the failed category with that line. -/
theorem C8_render_outcomes_witness :
    do_render ["parse error at line 9\n"] (.exited 2) =
      .error (render_fail_msg "render failed" ["parse error at line 9\n"]) :=
  C8_render_outcomes.2.1 ["parse error at line 9\n"] 2 (by decide)

/-- C9: the quit key (`q`, 113) exits with code 0 (`exit(0)`), and any
notification batch containing a removal signal drives the drain loop into
the exit path with code 0 (`return 0` at `do_exit`), no matter what
content-changed notifications accompany it in the batch. -/
theorem C9_exit_code_zero :
    (∀ (L : Nat) (s : KState), (handle_key L s 113).exitCode = some 0)
    ∧ (∀ (L : Nat) (s : VState) (renders : List (List String)) (ms : List Nat),
      ms.any is_delete_event = true →
      (drain_batch L s renders ms).2.2 = some 0) := by
  constructor
  · intro L s
    simp [handle_key]
  · intro L s renders ms h
    rw [(drain_batch_spec L s renders ms).2, if_pos h]

/-- C9, witness: quitting exits 0, and the batch `[IN_MODIFY,
IN_DELETE_SELF]` (a pending content change alongside the removal) exits 0. -/
theorem C9_exit_code_zero_witness :
    (handle_key 10 ⟨0, 0, 0, none⟩ 113).exitCode = some 0 ∧
    (drain_batch 10 ⟨[], 0⟩ [[]] [2, 1024]).2.2 = some 0 :=
  ⟨C9_exit_code_zero.1 10 ⟨0, 0, 0, none⟩,
   C9_exit_code_zero.2 10 ⟨[], 0⟩ [[]] [2, 1024] (by decide)⟩

end Zviewer
